import Mathlib

/-!
Verification development for the ForzaOpenTuneFormatter conversion and
report-generation core.  JavaScript numbers are modelled as exact rationals
(ℚ); JavaScript strings as Lean strings.  Functions are translated from
src/src/lib/conversions.ts (conversion engine plus the markdown renderer),
src/src/components/formatter/motorsport/fm-discord-generator.ts (the terse
chat renderer) and src/src/components/formatter/motorsport/FMSetup.ts (data
model).  Helper modules utils.ts, unitsOfMeasure.ts and types.ts are not in
the source tree; the few functions needed from them are modelled from the
specification and marked as such in their doc comments.
-/

/-- A JavaScript `string | number` argument. -/
abbrev StrOrNum := String ⊕ ℚ

/-- Value of a list of ASCII digit characters read in base 10. -/
def digitsToNat (ds : List Char) : ℕ :=
  ds.foldl (fun acc c => acc * 10 + (c.toNat - 48)) 0

/-- The rational denoted by a parsed numeral: sign, integer part, and
fraction digit characters. -/
def ratOfParts (neg : Bool) (ip : ℕ) (fracDigits : List Char) : ℚ :=
  let fp : ℚ := (digitsToNat fracDigits : ℚ) / (10 : ℚ) ^ fracDigits.length
  let v := (ip : ℚ) + fp
  if neg then -v else v

/-- Model of JavaScript `parseFloat` on the decimal numeral forms this
application produces (optional sign, integer digits, optional fraction;
longest valid prefix).  `none` models `NaN`. -/
def parseFloat (s : String) : Option ℚ :=
  let cs := s.data
  let signed : Bool × List Char :=
    match cs with
    | '-' :: rest => (true, rest)
    | '+' :: rest => (false, rest)
    | _ => (false, cs)
  let intSpan := signed.2.span (fun c => c.isDigit)
  let fracDigits : List Char :=
    match intSpan.2 with
    | '.' :: rest => (rest.span (fun c => c.isDigit)).1
    | _ => []
  if intSpan.1.isEmpty && fracDigits.isEmpty then none
  else some (ratOfParts signed.1 (digitsToNat intSpan.1) fracDigits)

/-- Renders a scaled integer (the value times ten to the precision) in
fixed point with `p` decimal places. -/
def renderFixed (scaled : ℤ) (p : ℕ) : String :=
  let sign : String := if scaled < 0 then "-" else ""
  let digits : List Char := Nat.toDigits 10 scaled.natAbs
  let padded : List Char :=
    if digits.length < p + 1 then List.replicate (p + 1 - digits.length) '0' ++ digits
    else digits
  let intPart : List Char := padded.take (padded.length - p)
  let fracPart : List Char := padded.drop (padded.length - p)
  if p = 0 then sign ++ String.mk intPart
  else sign ++ String.mk intPart ++ "." ++ String.mk fracPart

/-- Model of `Number.prototype.toFixed`: round to `p` decimal places picking
the larger candidate on ties, then render in fixed point. -/
def toFixed (q : ℚ) (p : ℕ) : String :=
  renderFixed (Int.floor (q * (10 : ℚ) ^ p + 1 / 2)) p

/-- `toFixed` lifted to a possibly-NaN (`none`) value, as JavaScript renders
`NaN.toFixed(p)` as the string NaN. -/
def toFixedOpt (q : Option ℚ) (p : ℕ) : String :=
  match q with
  | none => "NaN"
  | some v => toFixed v p

/-- Modelled from the spec: utils.ts (ensureFloat) is not under src/.
Section 4.1: coerce permissively, parse as float, default to 0 on failure;
numbers pass through. -/
def ensureFloat (value : StrOrNum) : ℚ :=
  match value with
  | Sum.inl s => (parseFloat s).getD 0
  | Sum.inr q => q

/-- Modelled from the spec: utils.ts (formatFloat) is not under src/.
Sections 4.3 and 7: an empty value renders as a blank cell; otherwise the
value is coerced to a float and rendered fixed-point with the given
precision and a literal suffix appended. -/
def formatFloat (value : String) (precision : ℕ) (suffix : String) : String :=
  if value = "" then "" else toFixed (ensureFloat (Sum.inl value)) precision ++ suffix

/-- Modelled from the spec: utils.ts (addSuffix) is not under src/.
Section 4.4: English ordinal suffix rules (1 st, 2 nd, 3 rd, otherwise th,
with 11 to 13 as exceptions rendered th). -/
def addSuffix (i : ℕ) : String :=
  if i % 100 = 11 ∨ i % 100 = 12 ∨ i % 100 = 13 then "th"
  else if i % 10 = 1 then "st"
  else if i % 10 = 2 then "nd"
  else if i % 10 = 3 then "rd"
  else "th"

/-- Pads a string with spaces on the right up to the target width, as
JavaScript `String.prototype.padEnd`. -/
def padEnd (s : String) (w : ℕ) : String :=
  s ++ String.mk (List.replicate (w - s.length) ' ')

/-- Pads a string with spaces on the left up to the target width, as
JavaScript `String.prototype.padStart`. -/
def padStart (s : String) (w : ℕ) : String :=
  String.mk (List.replicate (w - s.length) ' ') ++ s

/-- Strips leading and trailing whitespace, as JavaScript
`String.prototype.trim`. -/
def trimString (s : String) : String :=
  String.mk ((((s.data.dropWhile Char.isWhitespace).reverse).dropWhile Char.isWhitespace).reverse)

/-! ## Unit enums (lib/types.ts is absent; members are pinned by the source:
the two `Record<UnitOfMeasure, _>` tables in lib/conversions.ts enumerate
exactly these ten units, and the per-quantity enums are used throughout). -/

inductive PressureUnit | bar | psi
deriving DecidableEq, Fintype, Repr

inductive SpringRateUnit | kgf | lbs
deriving DecidableEq, Fintype, Repr

inductive LengthUnit | cm | inch
deriving DecidableEq, Fintype, Repr

inductive ForceUnit | kgf | lbf
deriving DecidableEq, Fintype, Repr

inductive SpeedUnit | kph | mph
deriving DecidableEq, Fintype, Repr

inductive WeightUnit | kg | lbs
deriving DecidableEq, Fintype, Repr

/-- The union of all unit enums, as lib/types.ts UnitOfMeasure. -/
inductive UnitOfMeasure
| pressure (u : PressureUnit)
| springRate (u : SpringRateUnit)
| length (u : LengthUnit)
| force (u : ForceUnit)
| speed (u : SpeedUnit)
deriving DecidableEq, Fintype, Repr

/-- The physical quantity a unit measures. -/
inductive Quantity | pressure | springRate | length | force | speed
deriving DecidableEq, Repr

def quantityOf : UnitOfMeasure → Quantity
  | .pressure _ => .pressure
  | .springRate _ => .springRate
  | .length _ => .length
  | .force _ => .force
  | .speed _ => .speed

/-! ## Conversion engine (lib/conversions.ts lines 17-209). -/

structure SpringMultipliers where
  newtonsKgf : ℚ
  newtonsLbs : ℚ

structure Multipliers where
  springs : SpringMultipliers
  force : ℚ
  pressure : ℚ
  length : ℚ
  weightNewtonsToMass : ℚ
  speed : ℚ

def multipliers : Multipliers :=
  { springs := { newtonsKgf := 0.1019716212978, newtonsLbs := 0.57101471743224 }
    force := 0.45359236844386
    pressure := 0.0689475728
    length := 0.39370078740214
    weightNewtonsToMass := 9.80665
    speed := 0.621371 }

def convertPressure (value : StrOrNum) (fromUnit : PressureUnit) : ℚ :=
  let v := ensureFloat value
  if fromUnit = PressureUnit.bar then v / multipliers.pressure
  else v * multipliers.pressure

def convertLength (value : StrOrNum) (fromUnit : LengthUnit) : ℚ :=
  let v := ensureFloat value
  if fromUnit = LengthUnit.cm then v * multipliers.length
  else v / multipliers.length

def convertForce (value : StrOrNum) (fromUnit : ForceUnit) : ℚ :=
  let v := ensureFloat value
  if fromUnit = ForceUnit.kgf then v / multipliers.force
  else v * multipliers.force

def convertSpeed (value : StrOrNum) (fromUnit : SpeedUnit) : ℚ :=
  let v := ensureFloat value
  if fromUnit = SpeedUnit.mph then v / multipliers.speed
  else v * multipliers.speed

def convertWeightToMass (value : StrOrNum) (fromUnit : WeightUnit) : ℚ :=
  let v := ensureFloat value
  let newtons :=
    if fromUnit = WeightUnit.kg then v / multipliers.springs.newtonsKgf
    else v / multipliers.springs.newtonsLbs
  newtons / multipliers.weightNewtonsToMass

def convertSpringRateToNewtons (value : StrOrNum) (fromUnit : SpringRateUnit) : ℚ :=
  let v := ensureFloat value
  if fromUnit = SpringRateUnit.kgf then v / multipliers.springs.newtonsKgf
  else if fromUnit = SpringRateUnit.lbs then v / multipliers.springs.newtonsLbs
  else v

def convertSpringRateFromNewtons (value : ℚ) (target : SpringRateUnit) : ℚ :=
  if target = SpringRateUnit.kgf then value * multipliers.springs.newtonsKgf
  else if target = SpringRateUnit.lbs then value * multipliers.springs.newtonsLbs
  else value

def convertSpringRate (value : StrOrNum) (fromUnit target : SpringRateUnit) : ℚ :=
  convertSpringRateFromNewtons (convertSpringRateToNewtons value fromUnit) target

/-- lib/conversions.ts lines 29-40: the per-target-unit conversion table. -/
def convertToMap : UnitOfMeasure → StrOrNum → ℚ
  | .pressure .bar => fun value => convertPressure value PressureUnit.psi
  | .pressure .psi => fun value => convertPressure value PressureUnit.bar
  | .springRate .kgf => fun value => convertSpringRate value SpringRateUnit.kgf SpringRateUnit.lbs
  | .springRate .lbs => fun value => convertSpringRate value SpringRateUnit.lbs SpringRateUnit.kgf
  | .length .cm => fun value => convertLength value LengthUnit.inch
  | .length .inch => fun value => convertLength value LengthUnit.cm
  | .force .kgf => fun value => convertForce value ForceUnit.lbf
  | .force .lbf => fun value => convertForce value ForceUnit.kgf
  | .speed .kph => fun value => convertSpeed value SpeedUnit.mph
  | .speed .mph => fun value => convertSpeed value SpeedUnit.kph

/-- lib/conversions.ts lines 42-44. -/
def convertTo (value : StrOrNum) (target : UnitOfMeasure) (precision : ℕ) : String :=
  toFixed (convertToMap target value) precision

/-- lib/conversions.ts lines 46-61: the unit pairing table. -/
def switchUnit : UnitOfMeasure → UnitOfMeasure
  | .pressure .bar => .pressure .psi
  | .pressure .psi => .pressure .bar
  | .springRate .kgf => .springRate .lbs
  | .springRate .lbs => .springRate .kgf
  | .length .cm => .length .inch
  | .length .inch => .length .cm
  | .force .kgf => .force .lbf
  | .force .lbf => .force .kgf
  | .speed .kph => .speed .mph
  | .speed .mph => .speed .kph

/-- Modelled from the spec: unitsOfMeasure.ts is not under src/.  Display
label of a unit, used for column headers and suffixes. -/
def unitLabel : UnitOfMeasure → String
  | .pressure .bar => "bar"
  | .pressure .psi => "psi"
  | .springRate .kgf => "kgf/mm"
  | .springRate .lbs => "lbs/in"
  | .length .cm => "cm"
  | .length .inch => "in"
  | .force .kgf => "kgf"
  | .force .lbf => "lbf"
  | .speed .kph => "kph"
  | .speed .mph => "mph"

/-- Converts a numeric value expressed in a unit to its paired opposite
unit, dispatching to the per-quantity conversion functions of
lib/conversions.ts. -/
def convertFromUnit (q : ℚ) : UnitOfMeasure → ℚ
  | .pressure u => convertPressure (Sum.inr q) u
  | .springRate .kgf => convertSpringRate (Sum.inr q) SpringRateUnit.kgf SpringRateUnit.lbs
  | .springRate .lbs => convertSpringRate (Sum.inr q) SpringRateUnit.lbs SpringRateUnit.kgf
  | .length u => convertLength (Sum.inr q) u
  | .force u => convertForce (Sum.inr q) u
  | .speed u => convertSpeed (Sum.inr q) u

/-- Modelled from the spec: unitsOfMeasure.ts (formatUnit) is not under
src/.  Section 4.3: a two-element sequence of display strings, the value in
its own unit then converted to the paired opposite unit, each fixed-point
with the given precision and an optional trailing unit label; an empty
string input short-circuits to a blank pair. -/
def formatUnit (value : StrOrNum) (unit : UnitOfMeasure) (precision : ℕ) (showUnit : Bool) : List String :=
  let render : ℚ → List String := fun q =>
    [ toFixed q precision ++ (if showUnit then " " ++ unitLabel unit else "")
    , toFixed (convertFromUnit q unit) precision ++ (if showUnit then " " ++ unitLabel (switchUnit unit) else "") ]
  match value with
  | Sum.inl s => if s = "" then ["", ""] else render ((parseFloat s).getD 0)
  | Sum.inr q => render q

/-- Modelled from the spec: unitsOfMeasure.ts (formatUnitHeaders) is not
under src/.  Section 4.3: the two column headers of a dual-unit table,
derived purely from the unit pairing. -/
def formatUnitHeaders (unit : UnitOfMeasure) : List String :=
  [unitLabel unit, unitLabel (switchUnit unit)]

/-! ## Data model (FMSetup.ts; field shapes for the pieces of lib/types.ts
that FMSetup.ts and the renderers exercise). -/

/-- lib/types.ts DriveType is a string enum (members seen: stock and drive
layouts); modelled as a plain string since only truthiness is used. -/
abbrev DriveType := String

structure FrontAndRearSettings where
  front : String
  rear : String
  na : Bool
deriving DecidableEq, Repr

structure FrontAndRearWithUnits where
  front : String
  rear : String
  units : UnitOfMeasure
  na : Bool
deriving DecidableEq, Repr

structure AccelDecelSettings where
  accel : String
  decel : String
deriving DecidableEq, Repr

structure DifferentialTuneSettings where
  front : AccelDecelSettings
  rear : AccelDecelSettings
  center : String
  na : Bool
deriving DecidableEq, Repr

structure GearTuneSettings where
  ratios : List String
  na : Bool
deriving DecidableEq, Repr

structure BrakeTuneSettings where
  na : Bool
  bias : String
  pressure : String
deriving DecidableEq, Repr

structure SteeringWheelTuneSettings where
  na : Bool
  ffbScale : String
  steeringLockRange : String
deriving DecidableEq, Repr

structure FMAlignmentTuneSettings where
  camber : FrontAndRearSettings
  toe : FrontAndRearSettings
  caster : String
  steeringAngle : String
  na : Bool
deriving DecidableEq, Repr

structure TuneSettings where
  tires : FrontAndRearWithUnits
  gears : GearTuneSettings
  alignment : FMAlignmentTuneSettings
  arb : FrontAndRearSettings
  springs : FrontAndRearWithUnits
  rideHeight : FrontAndRearWithUnits
  bump : FrontAndRearSettings
  rebound : FrontAndRearSettings
  rollCenterHeightOffset : FrontAndRearWithUnits
  antiGeometryPercent : FrontAndRearSettings
  aero : FrontAndRearWithUnits
  brake : BrakeTuneSettings
  diff : DifferentialTuneSettings
  steeringWheel : SteeringWheelTuneSettings
deriving DecidableEq, Repr

structure ConversionSettings where
  aspiration : String
  bodyKit : String
  engine : String
  drivetrain : DriveType
deriving DecidableEq, Repr

/-- Of PerformanceUpgrades only the conversions group is consumed by the
functions embedded here; the other upgrade groups are omitted as unused. -/
structure PerformanceUpgrades where
  conversions : ConversionSettings
deriving DecidableEq, Repr

/-! ## Markdown (reddit) renderer — the verbose target
(fm-reddit-generator embedded in lib/conversions.ts, lines 210-617). -/

namespace Md

def tableSeparator : String := "\n######\n"

/-- Removes every non-overlapping occurrence of a double star, as the
regex replace inside bold. -/
def stripStars : List Char → List Char
  | [] => []
  | '*' :: '*' :: rest => stripStars rest
  | c :: rest => c :: stripStars rest

def bold (value : String) : String :=
  if value = "" then value
  else "**" ++ String.mk (stripStars value.data) ++ "**"

def formatTableRow (row : List String) (boldFirstCol : Bool) : String :=
  let r :=
    if boldFirstCol then
      match row with
      | [] => []
      | c :: rest => bold c :: rest
    else row
  "|" ++ String.intercalate "|" r ++ "|"

def falseyValues : List String := ["", "N/A", "Stock", "None"]

def showValue (value : String) : Bool :=
  ! falseyValues.contains value

inductive TextAlign | left | right | center
deriving DecidableEq, Repr

def TextAlign.code : TextAlign → String
  | .left => ":--"
  | .right => "--:"
  | .center => ":-:"

def formatTable (header : List String) (body : List (List String)) (boldFirstCol : Bool) (textAlign : TextAlign) : List String :=
  let rowSeparator := [":--", textAlign.code] ++ List.replicate (header.length - 2) textAlign.code
  [formatTableRow (header.map bold) false, formatTableRow rowSeparator false]
    ++ body.map (fun row => formatTableRow row boldFirstCol)
    ++ [tableSeparator]

def formatFrontRearWithUnit (header : String) (value : FrontAndRearWithUnits) (precision : ℕ) : List String :=
  let headers := header :: formatUnitHeaders value.units
  if value.na then
    formatTable headers [["Not Applicable"] ++ formatUnit (Sum.inl "") value.units precision false] false TextAlign.right
  else
    formatTable headers
      [ ["Front"] ++ formatUnit (Sum.inl value.front) value.units precision false
      , ["Rear"] ++ formatUnit (Sum.inl value.rear) value.units precision false ]
      false TextAlign.right

/-- The loop of formatGears, starting at the given gear index: stops at the
first ratio whose parseFloat result is falsy (NaN or zero). -/
def gearRows : ℕ → List String → List (List String)
  | _, [] => []
  | index, r :: rest =>
    match parseFloat r with
    | none => []
    | some value =>
        if value = 0 then []
        else [toString index ++ addSuffix index, toFixed value 2] :: gearRows (index + 1) rest

/-- The body built by formatGears: the final-drive row then the loop rows. -/
def gearBody (ratios : List String) : List (List String) :=
  ["Final Drive", toFixedOpt (parseFloat (ratios.headD "")) 2] :: gearRows 1 ratios.tail

def formatGears (tune : TuneSettings) : List String :=
  if tune.gears.na then
    formatTable ["Gears", "Ratio"] [["Not Applicable", ""]] false TextAlign.right
  else
    let body := gearBody tune.gears.ratios
    if body.length = 1 ∧ tune.gears.ratios.headD "" = "" then []
    else formatTable ["Gears", "Ratio"] body false TextAlign.right

def formatSprings (tune : TuneSettings) : List String :=
  if tune.arb.na then
    formatTable ["ARBs", ""] [["Not Applicable", ""]] false TextAlign.right
  else
    formatFrontRearWithUnit "Springs" tune.springs 1
      ++ formatFrontRearWithUnit "Ride Height" tune.rideHeight 1

/-- The two data rows formatBrakes renders when the section is shown. -/
def brakeBody (brake : BrakeTuneSettings) : List (List String) :=
  [ ["Balance", formatFloat brake.bias 0 "%"]
  , ["Pressure", formatFloat brake.pressure 0 "%"] ]

def formatBrakes (tune : TuneSettings) : List String :=
  if tune.brake.bias = "" ∧ tune.brake.pressure = "" then
    formatTable ["Brakes", "%"] [["Not Applicable", ""]] false TextAlign.right
  else
    formatTable ["Brakes", "%"] (brakeBody tune.brake) false TextAlign.right

/-- The body built by formatDifferential when the section is applicable. -/
def differentialBody (diff : DifferentialTuneSettings) : List (List String) :=
  (if showValue diff.front.accel || showValue diff.front.decel then
    [["Front", formatFloat diff.front.accel 0 "%", formatFloat diff.front.decel 0 "%"]]
   else [])
  ++ (if showValue diff.rear.accel || showValue diff.rear.decel then
    [["Rear", formatFloat diff.rear.accel 0 "%", formatFloat diff.rear.decel 0 "%"]]
   else [])
  ++ (if showValue diff.center then
    [["Center", formatFloat diff.center 0 "%", ""]]
   else [])

def formatDifferential (diff : DifferentialTuneSettings) (driveType : DriveType) : List String :=
  if diff.na then
    formatTable ["Differential", "Accel", "Decel"] [["Not Applicable", "", ""]] false TextAlign.right
  else
    formatTable ["Differential", "Accel", "Decel"] (differentialBody diff) false TextAlign.right

def formatSteeringWheel (tune : TuneSettings) : List String :=
  if tune.steeringWheel.na then
    formatTable ["Steering Wheel", ""] [["Not Applicable", ""]] false TextAlign.right
  else
    formatTable ["Steering Wheel", ""]
      [ ["FFB Scale", tune.steeringWheel.ffbScale]
      , ["Steering Lock Range", tune.steeringWheel.steeringLockRange] ]
      false TextAlign.right

/-- JavaScript string-or default: the value, or Stock when empty. -/
def orStock (value : String) : String :=
  if value = "" then "Stock" else value

/-- The body built by formatConversions. -/
def conversionsBody (conversions : ConversionSettings) (driveType : DriveType) : List (List String) :=
  [ ["Engine", orStock conversions.engine]
  , ["Drivetrain", orStock driveType] ]
  ++ (if conversions.aspiration ≠ "" then [["Aspiration", orStock conversions.aspiration]] else [])
  ++ (if conversions.aspiration ≠ "" then [["Body Kit", orStock conversions.bodyKit]] else [])

def formatConversions (upgrades : PerformanceUpgrades) (driveType : DriveType) : List String :=
  formatTable ["Conversions", ""] (conversionsBody upgrades.conversions driveType) false TextAlign.left

end Md

/-! ## Discord renderer — the terse chat target
(components/formatter/motorsport/fm-discord-generator.ts). -/

namespace Fm

def tableSeparator : String := ""

def h1 (text : String) : String := "== " ++ text ++ " ==\n"

def h2 (text : String) : String := "-- " ++ text ++ " --"

def falseyValues : List String := ["", "N/A", "Stock", "None"]

def showValue (value : String) : Bool :=
  ! falseyValues.contains value

def showFrontRearValues (values : FrontAndRearSettings) : Bool :=
  showValue values.front || showValue values.rear

inductive TextAlign | left | right | center
deriving DecidableEq, Repr

def getColumnWidths (rows : List (List String)) : List ℕ :=
  (List.range (rows.headD []).length).map
    (fun i => rows.foldl (fun w row => max w ((row.getD i "").length)) 0)

def formatTableRow (row : List String) (widths : List ℕ) (alignment : TextAlign) : String :=
  let rowText := row.mapIdx (fun index cell =>
    let width := widths.getD index 0
    if cell = "/" then cell
    else
      match alignment with
      | .center => padEnd (padStart cell (width / 2)) width
      | .left => padEnd cell width
      | .right => padStart cell width)
  trimString (String.intercalate " " rowText)

def formatTable (header : String) (body : List (List String)) (alignment : TextAlign) : List String :=
  if body.isEmpty then []
  else
    let widths := getColumnWidths body
    (if header = "" then [] else [h2 header])
      ++ body.map (fun row => formatTableRow row widths alignment)
      ++ [tableSeparator]

def separate (values : List String) (separator : String) : List String :=
  values.intersperse separator

/-- The body built by formatFrontRearWithUnit.  Note both rows test
value.front against Stock when choosing the numeric value to render. -/
def frontRearWithUnitBody (value : FrontAndRearWithUnits) (precision : ℕ) (showAll : Bool) : List (List String) :=
  (if showAll || showValue value.front then
    let numValue : StrOrNum := if value.front = "Stock" then Sum.inr 0 else Sum.inl value.front
    [["F "] ++ separate (formatUnit numValue value.units precision true) "/"]
   else [])
  ++ (if showAll || showValue value.rear then
    let numValue : StrOrNum := if value.front = "Stock" then Sum.inr 0 else Sum.inl value.rear
    [["R "] ++ separate (formatUnit numValue value.units precision true) "/"]
   else [])

def formatFrontRearWithUnit (header : String) (value : FrontAndRearWithUnits) (precision : ℕ) (showAll : Bool) : List String :=
  if value.na then []
  else
    let body := frontRearWithUnitBody value precision showAll
    if body.isEmpty then []
    else formatTable header body TextAlign.right

/-- The loop of formatGears, starting at the given gear index: stops at the
first sentinel-valued ratio. -/
def gearRows : ℕ → List String → List (List String)
  | _, [] => []
  | index, r :: rest =>
    if showValue r then
      [toString index ++ addSuffix index, toFixedOpt (parseFloat r) 2] :: gearRows (index + 1) rest
    else []

/-- The body built by formatGears: the final-drive row then the loop rows. -/
def gearBody (ratios : List String) : List (List String) :=
  ["FR", toFixedOpt (parseFloat (ratios.headD "")) 2] :: gearRows 1 ratios.tail

def formatGears (tune : TuneSettings) : List String :=
  if tune.gears.na then []
  else
    let body := gearBody tune.gears.ratios
    if body.length = 1 ∧ tune.gears.ratios.headD "" = "" then []
    else h1 "Gearing" :: formatTable "" body TextAlign.left

/-- The rows built by formatBrakes, with the factory-default thresholds. -/
def brakeRows (brake : BrakeTuneSettings) : List (List String) :=
  (if showValue brake.bias && brake.bias != "50" then
    [["Balance", formatFloat brake.bias 0 "%"]]
   else [])
  ++ (if showValue brake.pressure && brake.pressure != "100" then
    [["Pressure", formatFloat brake.pressure 0 "%"]]
   else [])

def formatBrakes (tune : TuneSettings) : List String :=
  if tune.brake.na then []
  else
    let lines := brakeRows tune.brake
    if lines.isEmpty then []
    else h1 "Brakes" :: formatTable "" lines TextAlign.left

/-- The rows built by formatSteeringWheel, with the factory-default
thresholds. -/
def steeringRows (sw : SteeringWheelTuneSettings) : List (List String) :=
  (if showValue sw.ffbScale && sw.ffbScale != "100" then
    [["FFB Scale", sw.ffbScale]]
   else [])
  ++ (if showValue sw.steeringLockRange && sw.steeringLockRange != "900" then
    [["Steering Lock", sw.steeringLockRange]]
   else [])

def formatSteeringWheel (tune : TuneSettings) : List String :=
  if tune.steeringWheel.na then []
  else
    let lines := steeringRows tune.steeringWheel
    if lines.isEmpty then []
    else h1 "Steering Wheel" :: formatTable "" lines TextAlign.left

def formatDiffLine (label : String) (setting : AccelDecelSettings) : List String :=
  let line : List String :=
    [ label
    , if showValue setting.accel then formatFloat setting.accel 0 "%" else "-"
    , if showValue setting.decel then formatFloat setting.decel 0 "%" else "-" ]
  if line.getD 1 "" = "-" ∧ line.getD 2 "" = "-" then [] else line

/-- The lines built by formatDifferential when the section is applicable:
an accel/decel table for any front and rear rows, then a Center line unless
the center value is a sentinel or the factory default 50. -/
def differentialLines (diff : DifferentialTuneSettings) : List String :=
  let front := formatDiffLine "F " diff.front
  let rear := formatDiffLine "R " diff.rear
  let body := (if front.isEmpty then [] else [front]) ++ (if rear.isEmpty then [] else [rear])
  (if body.isEmpty then [] else formatTable "" (["-", "Accel", "Decel"] :: body) TextAlign.left)
    ++ (if showValue diff.center && diff.center != "50" then
          ["Center " ++ formatFloat diff.center 0 "%", ""]
        else [])

def formatDifferential (diff : DifferentialTuneSettings) (driveType : DriveType) : List String :=
  if diff.na then []
  else
    let lines := differentialLines diff
    if lines.isEmpty then []
    else h1 "Differential" :: lines

end Fm

/-! ## Concrete records used by witnesses and counterexamples. -/

/-- The tune section of getFMDefaultFormV2 (FMSetup.ts lines 288-377). -/
def defaultTune : TuneSettings :=
  { tires := { front := "", rear := "", units := .pressure .bar, na := false }
  , gears := { ratios := ["", "", "", "", "", "", "", "", "", "", ""], na := false }
  , alignment :=
      { camber := { front := "", rear := "", na := false }
      , toe := { front := "", rear := "", na := false }
      , caster := "", steeringAngle := "", na := false }
  , arb := { front := "", rear := "", na := false }
  , springs := { front := "", rear := "", units := .springRate .kgf, na := false }
  , rideHeight := { front := "", rear := "", units := .length .cm, na := false }
  , bump := { front := "", rear := "", na := false }
  , rebound := { front := "", rear := "", na := false }
  , rollCenterHeightOffset := { front := "", rear := "", units := .length .cm, na := false }
  , antiGeometryPercent := { front := "", rear := "", na := false }
  , aero := { front := "", rear := "", units := .force .kgf, na := false }
  , brake := { na := false, bias := "", pressure := "" }
  , diff :=
      { front := { accel := "", decel := "" }
      , rear := { accel := "", decel := "" }
      , center := "", na := false }
  , steeringWheel := { na := true, ffbScale := "", steeringLockRange := "" } }

/-- The differential scenario of the spec: front 50/50, rear empty,
center 50, applicable. -/
def diffC1 : DifferentialTuneSettings :=
  { front := { accel := "50", decel := "50" }
  , rear := { accel := "", decel := "" }
  , center := "50", na := false }

/-- A ratio list with a zero entry before the first empty slot. -/
def badRatios : List String :=
  ["3.50", "0", "1.40", "", "", "", "", "", "", "", ""]

/-- A tune whose gear ratios follow the truncation scenario of the spec. -/
def tuneGears : TuneSettings :=
  { defaultTune with gears :=
      { ratios := ["3.50", "2.10", "1.40", "", "", "", "", "", "", "", ""], na := false } }

def brakeC5 : BrakeTuneSettings := { na := false, bias := "55", pressure := "100" }

def steeringC5 : SteeringWheelTuneSettings :=
  { na := false, ffbScale := "100", steeringLockRange := "540" }

def tuneC5 : TuneSettings :=
  { defaultTune with brake := brakeC5, steeringWheel := steeringC5 }

/-- A front/rear record whose front is the Stock sentinel while the rear is
a displayable number. -/
def frontRearC10 : FrontAndRearWithUnits :=
  { front := "Stock", rear := "30", units := .pressure .bar, na := false }

/-- JavaScript truthiness of a parsed ratio: parseFloat produced a number
other than NaN and zero (the continue-condition of the verbose gears
loop). -/
def parsesTruthy (r : String) : Bool :=
  match parseFloat r with
  | none => false
  | some q => q != 0

/-! ## Theorems. -/

/-- Helper: an exact round trip satisfies any nonnegative relative
tolerance bound. -/
theorem abs_sub_le_tol_of_eq (v x : ℚ) (h : x = v) : |x - v| ≤ 0.000001 * |v| := by
  subst h
  simp
  positivity

/-- Claim C7: switchUnit is total over all ten defined units, is an
involution, and pairs each unit with a distinct unit of the same physical
quantity. -/
theorem c7_switchUnit_involution_total :
    Fintype.card UnitOfMeasure = 10 ∧
    ∀ u : UnitOfMeasure,
      switchUnit (switchUnit u) = u ∧ switchUnit u ≠ u ∧
      quantityOf (switchUnit u) = quantityOf u := by
  decide

/-- Claim C8: convertWeightToMass divides the coerced value by the
spring-rate newtons constant of the weight unit (0.1019716212978 for kg,
0.57101471743224 otherwise) and then by the gravity constant 9.80665,
reusing convertSpringRateToNewtons's constants. -/
theorem c8_convertWeightToMass_formula (value : StrOrNum) (u : WeightUnit) :
    convertWeightToMass value u
      = ensureFloat value
          / (if u = WeightUnit.kg then (0.1019716212978 : ℚ) else 0.57101471743224)
          / 9.80665 ∧
    convertWeightToMass value u
      = convertSpringRateToNewtons value
          (if u = WeightUnit.kg then SpringRateUnit.kgf else SpringRateUnit.lbs)
          / multipliers.weightNewtonsToMass := by
  cases u <;>
    exact ⟨rfl, rfl⟩

/-- Claim C2 (code bug): for the spring-rate target units the convertTo
table converts in the wrong direction: convertTo with target kgf/mm
computes convertSpringRate from kgf/mm into lbs/in, not the claimed
conversion from the paired opposite unit lbs/in into kgf/mm, and the two
numbers differ at input 1. -/
theorem c2_convertTo_springRate_direction_bug :
    convertToMap (UnitOfMeasure.springRate SpringRateUnit.kgf) (Sum.inr 1)
      = convertSpringRate (Sum.inr 1) SpringRateUnit.kgf SpringRateUnit.lbs ∧
    convertToMap (UnitOfMeasure.springRate SpringRateUnit.kgf) (Sum.inr 1)
      ≠ convertSpringRate (Sum.inr 1) SpringRateUnit.lbs SpringRateUnit.kgf ∧
    convertTo (Sum.inr 1) (UnitOfMeasure.springRate SpringRateUnit.kgf) 4 = "5.5997" ∧
    toFixed (convertSpringRate (Sum.inr 1) SpringRateUnit.lbs SpringRateUnit.kgf) 4 = "0.1786" := by
  have hcode : convertToMap (UnitOfMeasure.springRate SpringRateUnit.kgf) (Sum.inr 1)
      = (4758455978602 : ℚ) / 849763510815 := by
    norm_num [convertToMap, convertSpringRate, convertSpringRateToNewtons,
      convertSpringRateFromNewtons, ensureFloat, multipliers]
    decide
  have hclaim : convertSpringRate (Sum.inr 1) SpringRateUnit.lbs SpringRateUnit.kgf
      = (849763510815 : ℚ) / 4758455978602 := by
    norm_num [convertSpringRate, convertSpringRateToNewtons,
      convertSpringRateFromNewtons, ensureFloat, multipliers]
    decide
  refine ⟨rfl, ?_, ?_, ?_⟩
  · rw [hcode, hclaim]
    norm_num
  · unfold convertTo toFixed
    rw [hcode]
    norm_num
    decide
  · unfold toFixed
    rw [hclaim]
    norm_num
    decide

/-- Claim C4: every paired conversion round-trips within 1e-6 relative
tolerance for every rational value (the model's conversions are exact, so
the round trip is exact). -/
theorem c4_roundtrip_conversions (v : ℚ) :
    |convertPressure (Sum.inr (convertPressure (Sum.inr v) PressureUnit.bar)) PressureUnit.psi - v|
      ≤ 0.000001 * |v| ∧
    |convertPressure (Sum.inr (convertPressure (Sum.inr v) PressureUnit.psi)) PressureUnit.bar - v|
      ≤ 0.000001 * |v| ∧
    |convertLength (Sum.inr (convertLength (Sum.inr v) LengthUnit.cm)) LengthUnit.inch - v|
      ≤ 0.000001 * |v| ∧
    |convertLength (Sum.inr (convertLength (Sum.inr v) LengthUnit.inch)) LengthUnit.cm - v|
      ≤ 0.000001 * |v| ∧
    |convertForce (Sum.inr (convertForce (Sum.inr v) ForceUnit.kgf)) ForceUnit.lbf - v|
      ≤ 0.000001 * |v| ∧
    |convertForce (Sum.inr (convertForce (Sum.inr v) ForceUnit.lbf)) ForceUnit.kgf - v|
      ≤ 0.000001 * |v| ∧
    |convertSpeed (Sum.inr (convertSpeed (Sum.inr v) SpeedUnit.kph)) SpeedUnit.mph - v|
      ≤ 0.000001 * |v| ∧
    |convertSpeed (Sum.inr (convertSpeed (Sum.inr v) SpeedUnit.mph)) SpeedUnit.kph - v|
      ≤ 0.000001 * |v| ∧
    |convertSpringRate (Sum.inr (convertSpringRate (Sum.inr v) SpringRateUnit.kgf SpringRateUnit.lbs)) SpringRateUnit.lbs SpringRateUnit.kgf - v|
      ≤ 0.000001 * |v| ∧
    |convertSpringRate (Sum.inr (convertSpringRate (Sum.inr v) SpringRateUnit.lbs SpringRateUnit.kgf)) SpringRateUnit.kgf SpringRateUnit.lbs - v|
      ≤ 0.000001 * |v| := by
  have hp : multipliers.pressure ≠ 0 := by norm_num [multipliers]
  have hl : multipliers.length ≠ 0 := by norm_num [multipliers]
  have hf : multipliers.force ≠ 0 := by norm_num [multipliers]
  have hs : multipliers.speed ≠ 0 := by norm_num [multipliers]
  have ha : multipliers.springs.newtonsKgf ≠ 0 := by norm_num [multipliers]
  have hb : multipliers.springs.newtonsLbs ≠ 0 := by norm_num [multipliers]
  refine ⟨?_, ?_, ?_, ?_, ?_, ?_, ?_, ?_, ?_, ?_⟩ <;>
    apply abs_sub_le_tol_of_eq <;>
    simp [convertPressure, convertLength, convertForce, convertSpeed,
      convertSpringRate, convertSpringRateToNewtons, convertSpringRateFromNewtons,
      ensureFloat] <;>
    field_simp <;>
    ring

/-! ### Evaluation lemmas for concrete numerals (rational arithmetic does
not reduce definitionally, so these bridge string parsing and rendering to
literal values). -/

theorem parseFloat_blank : parseFloat "" = none := rfl

theorem parseFloat_fifty : parseFloat "50" = some 50 := by
  have h : parseFloat "50" = some (ratOfParts false 50 []) := rfl
  rw [h]
  norm_num [ratOfParts, digitsToNat]

theorem parseFloat_three_fifty : parseFloat "3.50" = some (7 / 2) := by
  have h : parseFloat "3.50" = some (ratOfParts false 3 ['5', '0']) := rfl
  have hd : digitsToNat ['5', '0'] = 50 := by decide
  rw [h]
  norm_num [ratOfParts, hd]

theorem parseFloat_two_ten : parseFloat "2.10" = some (21 / 10) := by
  have h : parseFloat "2.10" = some (ratOfParts false 2 ['1', '0']) := rfl
  have hd : digitsToNat ['1', '0'] = 10 := by decide
  rw [h]
  norm_num [ratOfParts, hd]

theorem parseFloat_one_forty : parseFloat "1.40" = some (7 / 5) := by
  have h : parseFloat "1.40" = some (ratOfParts false 1 ['4', '0']) := rfl
  have hd : digitsToNat ['4', '0'] = 40 := by decide
  rw [h]
  norm_num [ratOfParts, hd]

theorem parseFloat_zero : parseFloat "0" = some 0 := by
  have h : parseFloat "0" = some (ratOfParts false 0 []) := rfl
  rw [h]
  norm_num [ratOfParts, digitsToNat]

theorem toFixed_fifty : toFixed 50 0 = "50" := by
  unfold toFixed
  norm_num
  decide

theorem toFixed_three_fifty : toFixed (7 / 2) 2 = "3.50" := by
  unfold toFixed
  norm_num
  decide

theorem toFixed_two_ten : toFixed (21 / 10) 2 = "2.10" := by
  unfold toFixed
  norm_num
  decide

theorem toFixed_one_forty : toFixed (7 / 5) 2 = "1.40" := by
  unfold toFixed
  norm_num
  decide

theorem formatFloat_fifty : formatFloat "50" 0 "%" = "50%" := by
  simp [formatFloat, ensureFloat, parseFloat_fifty, toFixed_fifty]

/-- Claim C1 counterexample: for the differential setting front 50/50,
rear empty, center 50, na false, the terse renderer does not return an
empty sequence — the claim says the section is fully suppressed there. -/
theorem c1_terse_differential_not_suppressed_cex :
    Fm.formatDifferential diffC1 "RWD" ≠ [] := by
  simp only [Fm.formatDifferential, Fm.differentialLines, Fm.formatDiffLine, diffC1,
    formatFloat_fifty]
  decide

/-- Claim C1 (amended): at that differential setting the terse renderer
suppresses only the Center line (whose value 50 equals the factory
default) but still renders the section with the Front accel/decel row at
50 percent, while the verbose renderer renders the Front and Center rows
numerically. -/
theorem c1_differential_fifty_rendering :
    Fm.formatDifferential diffC1 "RWD"
      = ["== Differential ==\n", "-  Accel Decel", "F  50%   50%", ""] ∧
    Md.formatDifferential diffC1 "RWD"
      = ["|**Differential**|**Accel**|**Decel**|", "|:--|--:|--:|",
         "|Front|50%|50%|", "|Center|50%||", "\n######\n"] := by
  constructor
  · simp only [Fm.formatDifferential, Fm.differentialLines, Fm.formatDiffLine, diffC1,
      formatFloat_fifty]
    decide
  · simp only [Md.formatDifferential, Md.differentialBody, diffC1, formatFloat_fifty]
    decide

/-- Claim C9: in the markdown renderer the suppression of the springs
section is decided solely by the anti-roll-bar flag: with arb.na set it
renders a fixed Not Applicable table headed ARBs regardless of the springs
and ride-height settings, and otherwise it renders the Springs and Ride
Height tables, whose own na flags only affect those tables' contents. -/
theorem c9_springs_gated_by_arb_na (t : TuneSettings) :
    Md.formatSprings t =
      if t.arb.na = true then
        ["|**ARBs**||", "|:--|--:|", "|Not Applicable||", "\n######\n"]
      else
        Md.formatFrontRearWithUnit "Springs" t.springs 1
          ++ Md.formatFrontRearWithUnit "Ride Height" t.rideHeight 1 := by
  by_cases h : t.arb.na
  · simp only [Md.formatSprings, h, if_pos rfl, if_true]
    decide
  · simp [Md.formatSprings, h]

/-- Claim C6: in the markdown renderer's Conversions table the Body Kit
row is present exactly when the aspiration field is non-empty (the code
tests aspiration, not bodyKit), and its value cell is bodyKit, or Stock
when bodyKit is empty. -/
theorem c6_bodykit_row_follows_aspiration (c : ConversionSettings) (d : DriveType)
    (u : PerformanceUpgrades) :
    (["Body Kit", if c.bodyKit = "" then "Stock" else c.bodyKit] ∈ Md.conversionsBody c d
       ↔ c.aspiration ≠ "") ∧
    Md.formatConversions u d
      = Md.formatTable ["Conversions", ""] (Md.conversionsBody u.conversions d) false
          Md.TextAlign.left := by
  constructor
  · by_cases ha : c.aspiration = "" <;>
      simp [Md.conversionsBody, Md.orStock, ha]
  · rfl

/-- Claim C5: terse-renderer row policies — Balance iff bias non-sentinel
and not 50, Pressure iff pressure non-sentinel and not 100, FFB Scale iff
ffbScale non-sentinel and not 100, Steering Lock iff steeringLockRange
non-sentinel and not 900 — while the markdown renderer never suppresses
those numeric defaults: it shows the placeholder only when both brake
fields are literally empty and otherwise always renders both rows, and
with steeringWheel.na false always renders both steering rows. -/
theorem c5_row_visibility_policies (b : BrakeTuneSettings) (sw : SteeringWheelTuneSettings)
    (t : TuneSettings) :
    (["Balance", formatFloat b.bias 0 "%"] ∈ Fm.brakeRows b
       ↔ (Fm.showValue b.bias = true ∧ b.bias ≠ "50")) ∧
    (["Pressure", formatFloat b.pressure 0 "%"] ∈ Fm.brakeRows b
       ↔ (Fm.showValue b.pressure = true ∧ b.pressure ≠ "100")) ∧
    (["FFB Scale", sw.ffbScale] ∈ Fm.steeringRows sw
       ↔ (Fm.showValue sw.ffbScale = true ∧ sw.ffbScale ≠ "100")) ∧
    (["Steering Lock", sw.steeringLockRange] ∈ Fm.steeringRows sw
       ↔ (Fm.showValue sw.steeringLockRange = true ∧ sw.steeringLockRange ≠ "900")) ∧
    (t.brake.na = false →
       Fm.formatBrakes t
         = if (Fm.brakeRows t.brake).isEmpty then []
           else Fm.h1 "Brakes" :: Fm.formatTable "" (Fm.brakeRows t.brake) Fm.TextAlign.left) ∧
    (¬ (t.brake.bias = "" ∧ t.brake.pressure = "") →
       Md.formatBrakes t
         = Md.formatTable ["Brakes", "%"] (Md.brakeBody t.brake) false Md.TextAlign.right) ∧
    ((t.brake.bias = "" ∧ t.brake.pressure = "") →
       Md.formatBrakes t
         = Md.formatTable ["Brakes", "%"] [["Not Applicable", ""]] false Md.TextAlign.right) ∧
    (t.steeringWheel.na = false →
       Md.formatSteeringWheel t
         = Md.formatTable ["Steering Wheel", ""]
             [ ["FFB Scale", t.steeringWheel.ffbScale]
             , ["Steering Lock Range", t.steeringWheel.steeringLockRange] ]
             false Md.TextAlign.right) := by
  refine ⟨?_, ?_, ?_, ?_, ?_, ?_, ?_, ?_⟩
  · by_cases h1 : Fm.showValue b.bias <;> by_cases h2 : b.bias = "50" <;>
      simp [Fm.brakeRows, h1, h2]
  · by_cases h1 : Fm.showValue b.pressure <;> by_cases h2 : b.pressure = "100" <;>
      simp [Fm.brakeRows, h1, h2]
  · by_cases h1 : Fm.showValue sw.ffbScale <;> by_cases h2 : sw.ffbScale = "100" <;>
      simp [Fm.steeringRows, h1, h2]
  · by_cases h1 : Fm.showValue sw.steeringLockRange <;>
      by_cases h2 : sw.steeringLockRange = "900" <;>
      simp [Fm.steeringRows, h1, h2]
  · intro h
    simp [Fm.formatBrakes, h]
  · intro h
    simp only [Md.formatBrakes, if_neg h]
  · intro h
    simp only [Md.formatBrakes, if_pos h]
  · intro h
    simp [Md.formatSteeringWheel, h]

/-- Claim C5 witness: the policies applied to a concrete brake and
steering-wheel setting (bias 55 shown, pressure 100 suppressed in the
terse renderer, but rendered by the markdown renderer). -/
theorem c5_row_visibility_policies_witness :
    (["Balance", formatFloat brakeC5.bias 0 "%"] ∈ Fm.brakeRows brakeC5) ∧
    (["Pressure", formatFloat brakeC5.pressure 0 "%"] ∉ Fm.brakeRows brakeC5) ∧
    Md.formatBrakes tuneC5
      = Md.formatTable ["Brakes", "%"] (Md.brakeBody tuneC5.brake) false Md.TextAlign.right ∧
    Md.formatSteeringWheel tuneC5
      = Md.formatTable ["Steering Wheel", ""]
          [ ["FFB Scale", tuneC5.steeringWheel.ffbScale]
          , ["Steering Lock Range", tuneC5.steeringWheel.steeringLockRange] ]
          false Md.TextAlign.right := by
  have h := c5_row_visibility_policies brakeC5 steeringC5 tuneC5
  refine ⟨?_, ?_, ?_, ?_⟩
  · exact h.1.mpr (by decide)
  · intro hmem
    exact absurd (h.2.1.mp hmem) (by decide)
  · exact h.2.2.2.2.2.1 (by decide)
  · exact h.2.2.2.2.2.2.2 (by decide)

/-- Claim C10: in the terse renderer's formatFrontRearWithUnit the rear
row's numeric value is selected by testing the front field: with na false
and a displayable rear, a front equal to Stock makes the rear row render
from the number 0 (and the front row disappears, so the body is exactly
that one row), while a front different from Stock makes the rear row
render from the actual rear value. -/
theorem c10_rear_row_uses_front_stock_check (v : FrontAndRearWithUnits) (p : ℕ)
    (hna : v.na = false) (hrear : Fm.showValue v.rear = true) :
    (v.front = "Stock" →
       Fm.frontRearWithUnitBody v p false
         = [["R "] ++ Fm.separate (formatUnit (Sum.inr 0) v.units p true) "/"]) ∧
    (v.front ≠ "Stock" →
       ["R "] ++ Fm.separate (formatUnit (Sum.inl v.rear) v.units p true) "/"
         ∈ Fm.frontRearWithUnitBody v p false) ∧
    (∀ hd : String,
       Fm.formatFrontRearWithUnit hd v p false
         = if (Fm.frontRearWithUnitBody v p false).isEmpty then []
           else Fm.formatTable hd (Fm.frontRearWithUnitBody v p false) Fm.TextAlign.right) := by
  refine ⟨?_, ?_, ?_⟩
  · intro hf
    have hsv : Fm.showValue "Stock" = false := by decide
    simp [Fm.frontRearWithUnitBody, hf, hsv, hrear]
  · intro hf
    simp [Fm.frontRearWithUnitBody, hrear, if_neg hf]
  · intro hd
    simp [Fm.formatFrontRearWithUnit, hna]

/-- Claim C10 witness: front Stock, rear 30 — the rear row is rendered
from the number 0 rather than from 30. -/
theorem c10_rear_row_uses_front_stock_check_witness :
    frontRearC10.na = false ∧ Fm.showValue frontRearC10.rear = true ∧
    Fm.frontRearWithUnitBody frontRearC10 1 false
      = [["R "] ++ Fm.separate (formatUnit (Sum.inr 0) frontRearC10.units 1 true) "/"] := by
  refine ⟨rfl, by decide, ?_⟩
  exact (c10_rear_row_uses_front_stock_check frontRearC10 1 rfl (by decide)).1 rfl

/-- The verbose gears loop renders exactly one row per leading ratio whose
parseFloat is truthy. -/
theorem mdGearRows_takeWhile (l : List String) :
    ∀ i, (Md.gearRows i l).length = (l.takeWhile parsesTruthy).length := by
  induction l with
  | nil => intro i; simp [Md.gearRows]
  | cons r rest ih =>
    intro i
    cases hq : parseFloat r with
    | none => simp [Md.gearRows, hq, List.takeWhile, parsesTruthy]
    | some q =>
      by_cases h0 : q = 0
      · simp [Md.gearRows, hq, h0, List.takeWhile, parsesTruthy]
      · have hb : (q != 0) = true := by simpa [bne_iff_ne] using h0
        simp [Md.gearRows, hq, h0, hb, List.takeWhile, parsesTruthy, ih]

/-- The terse gears loop renders exactly one row per leading non-sentinel
ratio. -/
theorem fmGearRows_takeWhile (l : List String) :
    ∀ i, (Fm.gearRows i l).length = (l.takeWhile Fm.showValue).length := by
  induction l with
  | nil => intro i; simp [Fm.gearRows]
  | cons r rest ih =>
    intro i
    by_cases h : Fm.showValue r = true
    · simp [Fm.gearRows, h, List.takeWhile, ih]
    · simp [Fm.gearRows, h, List.takeWhile]

/-- Claim C3 counterexample: with ratios 3.50, 0, 1.40 then empties, the
entries 0 and 1.40 are non-empty and precede the first empty slot (index
3), yet the verbose renderer's gear body has only the final-drive row:
the claimed row count (final drive plus one row per non-empty ratio
before the first empty slot) fails. -/
theorem c3_gears_zero_ratio_cex :
    ¬ ((Md.gearBody badRatios).length
        = 1 + (badRatios.tail.takeWhile (fun r => r != "")).length) := by
  have h1 : (Md.gearBody badRatios).length = 1 := by
    simp [Md.gearBody, Md.gearRows, badRatios, parseFloat_zero]
  have h2 : (badRatios.tail.takeWhile (fun r => r != "")).length = 2 := by decide
  rw [h1, h2]
  decide

/-- Claim C3 (amended): both renderers emit the final-drive row and then
one row per subsequent ratio in index order, stopping at the first entry
the renderer treats as absent — the verbose renderer at the first ratio
whose parseFloat is NaN or zero, the terse renderer at the first sentinel
ratio (so a non-empty entry such as 0 also stops the verbose loop); on
the spec's example list, where every entry before the first empty slot
parses to a nonzero float, both render exactly three data rows. -/
theorem c3_gears_stop_at_renderer_gap :
    (∀ (i : ℕ) (l : List String),
       (Md.gearRows i l).length = (l.takeWhile parsesTruthy).length) ∧
    (∀ (i : ℕ) (l : List String),
       (Fm.gearRows i l).length = (l.takeWhile Fm.showValue).length) ∧
    Md.formatGears tuneGears
      = Md.formatTable ["Gears", "Ratio"]
          [["Final Drive", "3.50"], ["1st", "2.10"], ["2nd", "1.40"]] false
          Md.TextAlign.right ∧
    Fm.formatGears tuneGears
      = Fm.h1 "Gearing"
          :: Fm.formatTable "" [["FR", "3.50"], ["1st", "2.10"], ["2nd", "1.40"]]
               Fm.TextAlign.left := by
  have hq1 : ((7 : ℚ) / 2) ≠ 0 := by norm_num
  have hq2 : ((21 : ℚ) / 10) ≠ 0 := by norm_num
  have hq3 : ((7 : ℚ) / 5) ≠ 0 := by norm_num
  have hmb : Md.gearBody ["3.50", "2.10", "1.40", "", "", "", "", "", "", "", ""]
      = [["Final Drive", "3.50"], ["1st", "2.10"], ["2nd", "1.40"]] := by
    simp [Md.gearBody, Md.gearRows, parseFloat_three_fifty, parseFloat_two_ten,
      parseFloat_one_forty, parseFloat_blank, toFixedOpt, toFixed_three_fifty,
      toFixed_two_ten, toFixed_one_forty, hq2, hq3]
    decide
  have hfb : Fm.gearBody ["3.50", "2.10", "1.40", "", "", "", "", "", "", "", ""]
      = [["FR", "3.50"], ["1st", "2.10"], ["2nd", "1.40"]] := by
    simp [Fm.gearBody, Fm.gearRows, parseFloat_three_fifty, parseFloat_two_ten,
      parseFloat_one_forty, toFixedOpt, toFixed_three_fifty, toFixed_two_ten,
      toFixed_one_forty]
    decide
  refine ⟨fun i l => mdGearRows_takeWhile l i, fun i l => fmGearRows_takeWhile l i, ?_, ?_⟩
  · simp [Md.formatGears, tuneGears, defaultTune, hmb]
  · simp [Fm.formatGears, tuneGears, defaultTune, hfb]
